import Mathlib

/-!
Verification of the chat relay-and-session core of the YiQi backend
(Express/TypeScript).  The definitions below are a shallow embedding of
the source files:

  * `src/middleware/rateLimitMiddleware.ts` — per-user sliding-window
    rate limiter (timestamps in milliseconds, modelled as `Int`);
  * `src/services/sessionService.ts` — in-memory session store
    (`Map<string, Session>` modelled as `String → Option Session`);
  * `src/services/chatService.ts` — validation, buffered (`sendMessage`)
    and streaming (`streamMessage`) exchanges, and the `/api/chat`
    route handlers.

JavaScript `number` timestamps are modelled as `Int` (they are integral
millisecond counts), `agentConfig.temperature` as `ℚ` (only order
comparisons are performed on it).  Human-readable error message strings
are reproduced verbatim except that numeric interpolation uses Lean's
`toString` rendering.  Asynchrony is flattened: a provider call is an
explicit oracle argument, and each `Date.now()` call site is a time
parameter.
-/

namespace YiQi

/-! ### Rate limiter (`rateLimitMiddleware.ts`) -/

/-- `RATE_LIMIT_WINDOW_MS = 60 * 1000`. -/
def RATE_LIMIT_WINDOW_MS : Int := 60 * 1000

/-- `RATE_LIMIT_MAX_REQUESTS = DEFAULT_RATE_LIMIT_PER_MINUTE = 10`
(`src/utils/constants.ts`). -/
def RATE_LIMIT_MAX_REQUESTS : Nat := 10

/-- The filter predicate `t => t > windowStart` with
`windowStart = now - RATE_LIMIT_WINDOW_MS`, used by both
`isRateLimitExceeded` and `recordRequest`. -/
def windowPred (now t : Int) : Bool := now - RATE_LIMIT_WINDOW_MS < t

/-- `isRateLimitExceeded(userId)`: filter the stored timestamps to the
window and compare the count against the cap
(`recentTimestamps.length >= RATE_LIMIT_MAX_REQUESTS`). -/
def isRateLimitExceeded (timestamps : List Int) (now : Int) : Bool :=
  RATE_LIMIT_MAX_REQUESTS ≤ (timestamps.filter (windowPred now)).length

/-- `recordRequest(userId)`: filter the stored timestamps to the window
and append `now`. -/
def recordRequest (timestamps : List Int) (now : Int) : List Int :=
  timestamps.filter (windowPred now) ++ [now]

/-- Error codes of `src/types/chat.ts` (`enum ErrorCode`). -/
inductive ErrorCode where
  | MISSING_PARAMETER
  | INVALID_CONFIG
  | INVALID_MODEL
  | INVALID_TEMPERATURE
  | MESSAGE_TOO_LONG
  | SYSTEM_PROMPT_TOO_LONG
  | INVALID_TOKEN
  | TOKEN_EXPIRED
  | FORBIDDEN_SESSION
  | RATE_LIMIT_EXCEEDED
  | CONFIG_MISSING
  | AI_API_ERROR
  | DATABASE_ERROR
  | INTERNAL_ERROR
deriving DecidableEq, Repr

/-- Outcome of running `rateLimitMiddleware` for an authenticated user:
either the request proceeds to the next handler (timestamp recorded) or
a 429 response is sent (store untouched). -/
inductive AdmitResult where
  | proceed (timestamps : List Int)
  | reject (code : ErrorCode) (status : Nat) (timestamps : List Int)
deriving DecidableEq, Repr

/-- The body of `rateLimitMiddleware` after the `userId` presence check:
if `isRateLimitExceeded` then respond 429 `RATE_LIMIT_EXCEEDED` without
recording, else `recordRequest` and call `next()`. -/
def rateLimitMiddleware (timestamps : List Int) (now : Int) : AdmitResult :=
  if isRateLimitExceeded timestamps now then
    .reject .RATE_LIMIT_EXCEEDED 429 timestamps
  else
    .proceed (recordRequest timestamps now)

/-- Run a whole sequence of requests from one identity through the
middleware, starting from stored timestamps `timestamps`; returns the
list of admitted request times and the final stored timestamps. -/
def runRequests (timestamps : List Int) : List Int → List Int × List Int
  | [] => ([], timestamps)
  | now :: rest =>
    match rateLimitMiddleware timestamps now with
    | .proceed ts' =>
      let r := runRequests ts' rest
      (now :: r.1, r.2)
    | .reject _ _ ts' =>
      let r := runRequests ts' rest
      (r.1, r.2)

/-- Membership of a timestamp `a` in the trailing window `(T - W, T]`
ending at `T` (the window the spec's cap invariant quantifies over). -/
def inWindow (T a : Int) : Bool := T - RATE_LIMIT_WINDOW_MS < a && a ≤ T

/-- Filtering with a pointwise-stronger predicate yields a list no longer
than filtering with the weaker one. -/
lemma length_filter_mono {α : Type} {p q : α → Bool} {l : List α}
    (h : ∀ x ∈ l, p x = true → q x = true) :
    (l.filter p).length ≤ (l.filter q).length := by
  induction l with
  | nil => simp
  | cons a l ih =>
    have hl : ∀ x ∈ l, p x = true → q x = true := fun x hx => h x (by simp [hx])
    by_cases hp : p a = true
    · have hq := h a (by simp) hp
      simp only [List.filter_cons, hp, hq, if_true, List.length_cons]
      exact Nat.succ_le_succ (ih hl)
    · have hp' : p a = false := by simpa using hp
      cases hq : q a
      · simp only [List.filter_cons, hp', hq]
        exact ih hl
      · simp only [List.filter_cons, hp', hq, List.length_cons]
        exact (ih hl).trans (Nat.le_succ _)

/-- Unfolding equation for `runRequests` at a rejected request. -/
lemma runRequests_cons_reject (ts : List Int) (now : Int) (rest : List Int)
    (h : isRateLimitExceeded ts now = true) :
    runRequests ts (now :: rest) = runRequests ts rest := by
  simp [runRequests, rateLimitMiddleware, h]

/-- Unfolding equation for `runRequests` at an admitted request. -/
lemma runRequests_cons_allow (ts : List Int) (now : Int) (rest : List Int)
    (h : isRateLimitExceeded ts now = false) :
    runRequests ts (now :: rest)
      = (now :: (runRequests (recordRequest ts now) rest).1,
         (runRequests (recordRequest ts now) rest).2) := by
  simp [runRequests, rateLimitMiddleware, h]

/-- Inductive core of the sliding-window cap invariant.  `A` is the full
history of admitted timestamps so far, `stored` is the limiter's current
(filtered) store, and `last` is a lower bound on all future request
times.  The store agrees with the history on every cutoff at least
`last - RATE_LIMIT_WINDOW_MS`; under that invariant, processing further
monotone request times keeps every trailing window of the admitted
history at or below the cap. -/
lemma runRequests_window_bound (times : List Int) :
    ∀ (A stored : List Int) (last : Int),
      List.Chain (· ≤ ·) last times →
      (∀ c : Int, last - RATE_LIMIT_WINDOW_MS ≤ c →
        (A.filter (fun t => decide (c < t))).length
          = (stored.filter (fun t => decide (c < t))).length) →
      (∀ T : Int, (A.filter (inWindow T)).length ≤ RATE_LIMIT_MAX_REQUESTS) →
      ∀ T : Int,
        ((A ++ (runRequests stored times).1).filter (inWindow T)).length
          ≤ RATE_LIMIT_MAX_REQUESTS := by
  induction times with
  | nil =>
    intro A stored last _ _ hbound T
    simpa [runRequests] using hbound T
  | cons now rest ih =>
    intro A stored last hchain hfilter hbound T
    rw [List.chain_cons] at hchain
    obtain ⟨hln, hch⟩ := hchain
    by_cases hex : isRateLimitExceeded stored now = true
    · -- rejected: store and admitted history unchanged for this step
      rw [runRequests_cons_reject stored now rest hex]
      exact ih A stored now hch (fun c hc => hfilter c (by omega)) hbound T
    · -- admitted: history gains `now`, store is refiltered and gains `now`
      have hex' : isRateLimitExceeded stored now = false := by
        simpa using hex
      rw [runRequests_cons_allow stored now rest hex']
      have hfilter' : ∀ c : Int, now - RATE_LIMIT_WINDOW_MS ≤ c →
          ((A ++ [now]).filter (fun t => decide (c < t))).length
            = ((recordRequest stored now).filter
                (fun t => decide (c < t))).length := by
        intro c hc
        have hA : (A.filter (fun t => decide (c < t))).length
            = (stored.filter (fun t => decide (c < t))).length :=
          hfilter c (by omega)
        have hcomp : (stored.filter (windowPred now)).filter
              (fun t => decide (c < t))
            = stored.filter (fun t => decide (c < t)) := by
          rw [List.filter_filter]
          refine List.filter_congr ?_
          intro t _
          by_cases h : c < t
          · have h2 : now - RATE_LIMIT_WINDOW_MS < t := by omega
            simp [windowPred, h, h2]
          · simp [h]
        simp only [recordRequest, List.filter_append, List.length_append,
          hcomp, hA]
      have hbound' : ∀ T' : Int,
          ((A ++ [now]).filter (inWindow T')).length
            ≤ RATE_LIMIT_MAX_REQUESTS := by
        intro T'
        rw [List.filter_append, List.length_append]
        by_cases hw : inWindow T' now = true
        · have h1 : (A.filter (inWindow T')).length
              ≤ (A.filter
                  (fun t => decide (now - RATE_LIMIT_WINDOW_MS < t))).length := by
            refine length_filter_mono ?_
            intro a _ hpa
            have h2 : T' - RATE_LIMIT_WINDOW_MS < a ∧ a ≤ T' := by
              simpa [inWindow] using hpa
            have h3 : T' - RATE_LIMIT_WINDOW_MS < now ∧ now ≤ T' := by
              simpa [inWindow] using hw
            simp only [decide_eq_true_eq]
            omega
          have h2 : (A.filter
                (fun t => decide (now - RATE_LIMIT_WINDOW_MS < t))).length
              = (stored.filter
                  (fun t => decide (now - RATE_LIMIT_WINDOW_MS < t))).length :=
            hfilter _ (by omega)
          have h4 : ¬ RATE_LIMIT_MAX_REQUESTS
              ≤ (stored.filter (windowPred now)).length := by
            simpa [isRateLimitExceeded] using hex'
          have h5 : stored.filter (windowPred now)
              = stored.filter
                  (fun t => decide (now - RATE_LIMIT_WINDOW_MS < t)) := rfl
          rw [h5] at h4
          have h6 : ([now].filter (inWindow T')).length = 1 := by
            simp [hw]
          omega
        · have hw' : inWindow T' now = false := by simpa using hw
          have h6 : ([now].filter (inWindow T')).length = 0 := by
            simp [hw']
          have := hbound T'
          omega
      have hassoc : A ++ now :: (runRequests (recordRequest stored now) rest).1
          = (A ++ [now]) ++ (runRequests (recordRequest stored now) rest).1 := by
        simp
      rw [show (now :: (runRequests (recordRequest stored now) rest).1,
            (runRequests (recordRequest stored now) rest).2).1
          = now :: (runRequests (recordRequest stored now) rest).1 from rfl,
        hassoc]
      exact ih (A ++ [now]) (recordRequest stored now) now hch hfilter' hbound' T

/-- C1: for every identity and every (time-monotone) sequence of requests,
the number of admitted requests whose timestamps lie within any trailing
window of `RATE_LIMIT_WINDOW_MS` never exceeds `RATE_LIMIT_MAX_REQUESTS`;
and when the in-window count has reached the cap, the next request is
rejected with `RATE_LIMIT_EXCEEDED` (HTTP 429) and its timestamp is not
recorded. -/
theorem rateLimiter_sliding_window_cap :
    (∀ times : List Int, List.Chain' (· ≤ ·) times →
      ∀ T : Int,
        (((runRequests [] times).1).filter (inWindow T)).length
          ≤ RATE_LIMIT_MAX_REQUESTS)
    ∧ (∀ (stored : List Int) (now : Int),
        isRateLimitExceeded stored now = true →
          rateLimitMiddleware stored now
            = .reject .RATE_LIMIT_EXCEEDED 429 stored) := by
  constructor
  · intro times hmono T
    cases times with
    | nil => simp [runRequests]
    | cons t0 rest =>
      have hchain : List.Chain (· ≤ ·) t0 (t0 :: rest) :=
        List.chain_cons.mpr ⟨le_refl t0, hmono⟩
      have := runRequests_window_bound (t0 :: rest) [] [] t0 hchain
        (fun c _ => rfl) (fun T' => by simp) T
      simpa using this
  · intro stored now h
    simp [rateLimitMiddleware, h]

/-- Witness for C1 at concrete inputs: fifteen simultaneous requests from
one identity admit at most ten into the window ending at time `0`, and a
store already holding ten in-window timestamps rejects the next request
unchanged. -/
theorem rateLimiter_sliding_window_cap_witness :
    ((((runRequests [] (List.replicate 15 (0 : Int))).1).filter
        (inWindow 0)).length ≤ RATE_LIMIT_MAX_REQUESTS)
    ∧ rateLimitMiddleware (List.replicate 10 (0 : Int)) 0
        = .reject .RATE_LIMIT_EXCEEDED 429 (List.replicate 10 (0 : Int)) :=
  ⟨rateLimiter_sliding_window_cap.1 (List.replicate 15 0)
      (List.chain'_replicate_of_rel 15 (le_refl 0)) 0,
   rateLimiter_sliding_window_cap.2 (List.replicate 10 0) 0 (by decide)⟩

/-- C5 counterexample: ten recorded timestamps lying exactly at
`now - RATE_LIMIT_WINDOW_MS` (here `0` with `now = 60000`) are all
dropped by the window filter — the boundary timestamp is counted as
expired, so admission at `now` proceeds even though the claim says the
ten boundary requests should still fill the window. -/
theorem windowBoundary_counterexample :
    ((List.replicate 10 (0 : Int)).filter (windowPred 60000)).length = 0
    ∧ isRateLimitExceeded (List.replicate 10 (0 : Int)) 60000 = false
    ∧ rateLimitMiddleware (List.replicate 10 (0 : Int)) 60000
        = .proceed [60000] := by
  decide

/-- C5 (amended): the window filter `t => t > now - RATE_LIMIT_WINDOW_MS`
is exclusive at the lower boundary — a recorded timestamp equal to
exactly `now - RATE_LIMIT_WINDOW_MS` is counted as expired and does not
count toward the in-window total — while a timestamp equal to `now`
does count. -/
theorem windowBoundary_exclusive :
    (∀ now t : Int,
      windowPred now t = true ↔ now - RATE_LIMIT_WINDOW_MS < t)
    ∧ (∀ now : Int, windowPred now (now - RATE_LIMIT_WINDOW_MS) = false)
    ∧ (∀ now : Int, windowPred now now = true) := by
  refine ⟨fun now t => ?_, fun now => ?_, fun now => ?_⟩
  · simp [windowPred]
  · simp [windowPred]
  · simp [windowPred, RATE_LIMIT_WINDOW_MS]

/-! ### Session store (`sessionService.ts`)

`Map<string, Session>` is modelled as a function `String → Option Session`
(the claims under verification never depend on `Map` iteration order). -/

/-- `MessageRole` of `src/types/chat.ts`. -/
inductive MessageRole where
  | user
  | assistant
  | system
deriving DecidableEq, Repr

/-- `ChatMessage` of `src/types/chat.ts`; `timestamp` is a millisecond
count. -/
structure ChatMessage where
  role : MessageRole
  content : String
  timestamp : Int
deriving DecidableEq, Repr

/-- `Session` of `src/types/chat.ts`. -/
structure Session where
  sessionId : String
  userId : String
  messages : List ChatMessage
  createdAt : Int
  updatedAt : Int
deriving DecidableEq, Repr

/-- `AppError` of `src/types/chat.ts` (the stack-trace machinery of the
JS `Error` base class is irrelevant and elided). -/
structure AppErr where
  code : ErrorCode
  message : String
  statusCode : Nat
deriving DecidableEq, Repr

/-- The `SessionService.sessions` map. -/
abbrev Store := String → Option Session

/-- The store with no sessions (a freshly constructed `SessionService`). -/
def emptyStore : Store := fun _ => none

/-- `SessionService.getSession`. -/
def getSession (store : Store) (sessionId : String) : Option Session :=
  store sessionId

/-- `SessionService.createSession`: registers a new session with an empty
message list and returns it (`now` models the `Date.now()` call). -/
def createSession (store : Store) (sessionId userId : String) (now : Int) :
    Store × Session :=
  let session : Session :=
    { sessionId := sessionId, userId := userId, messages := [],
      createdAt := now, updatedAt := now }
  (fun k => if k = sessionId then some session else store k, session)

/-- `SessionService.addMessage`: throws `DATABASE_ERROR` if the session is
absent, else appends `message` and bumps `updatedAt`. -/
def addMessage (store : Store) (sessionId : String) (message : ChatMessage)
    (now : Int) : Except AppErr Store :=
  match store sessionId with
  | none =>
    .error ⟨.DATABASE_ERROR, "Session " ++ sessionId ++ " not found", 500⟩
  | some s =>
    .ok (fun k =>
      if k = sessionId then
        some { s with messages := s.messages ++ [message], updatedAt := now }
      else store k)

/-- `SessionService.getMessages`: empty list when the session is absent. -/
def getMessages (store : Store) (sessionId : String) : List ChatMessage :=
  match store sessionId with
  | none => []
  | some s => s.messages

/-- `SessionService.cleanExpiredSessions`: removes every session whose
age `now - updatedAt` strictly exceeds `expirationHours` converted to
milliseconds. -/
def cleanExpiredSessions (store : Store) (now : Int) (expirationHours : Int) :
    Store :=
  let expirationMs := expirationHours * 60 * 60 * 1000
  fun k =>
    match store k with
    | none => none
    | some s => if now - s.updatedAt > expirationMs then none else some s

/-- The get-or-create pattern of `ChatService.sendMessage` /
`ChatService.streamMessage`: `getSession`, and `createSession` only when
absent (this is the spec's `createIfAbsent`). -/
def getOrCreateSession (store : Store) (sessionId userId : String)
    (now : Int) : Store × Session :=
  match getSession store sessionId with
  | some s => (store, s)
  | none => createSession store sessionId userId now

/-- C6: get-or-create is idempotent in ownership — a second invocation
with the same `sessionId` but a different `userId` returns exactly the
state and session of the first invocation (so the owner is the first
caller's, never the second's), and when the session was absent the first
invocation sets the owner to its own `userId` argument. -/
theorem createIfAbsent_ownership_idempotent (store : Store)
    (sid uid1 uid2 : String) (t1 t2 : Int) :
    (getOrCreateSession (getOrCreateSession store sid uid1 t1).1 sid uid2 t2
        = getOrCreateSession store sid uid1 t1)
    ∧ ((getOrCreateSession (getOrCreateSession store sid uid1 t1).1
          sid uid2 t2).2.userId
        = (getOrCreateSession store sid uid1 t1).2.userId)
    ∧ (getSession store sid = none →
        (getOrCreateSession store sid uid1 t1).2.userId = uid1) := by
  cases h : store sid with
  | some s =>
    refine ⟨?_, ?_, ?_⟩ <;>
      simp [getOrCreateSession, getSession, h]
  | none =>
    refine ⟨?_, ?_, ?_⟩ <;>
      simp [getOrCreateSession, getSession, createSession, h]

/-- Witness for C6: on an empty store, creating for identity `alice` and
re-invoking for identity `bob` yields a session still owned by `alice`. -/
theorem createIfAbsent_ownership_idempotent_witness :
    (getOrCreateSession (getOrCreateSession emptyStore "s" "alice" 0).1
        "s" "bob" 1).2.userId = "alice" := by
  have h := createIfAbsent_ownership_idempotent emptyStore "s" "alice" "bob" 0 1
  rw [h.2.1, h.2.2 rfl]

/-- C7: the expiration sweep is exact — a session survives
`cleanExpiredSessions` iff it was present and its age does not exceed
`expirationHours` in milliseconds; in particular a session one second
older than the bound is removed and one a second younger is retained. -/
theorem sweepExpired_exact (store : Store) (now expirationHours : Int)
    (sid : String) (s : Session) :
    (cleanExpiredSessions store now expirationHours sid = some s
      ↔ store sid = some s
        ∧ ¬ now - s.updatedAt > expirationHours * 60 * 60 * 1000)
    ∧ (store sid = some s →
        s.updatedAt = now - (expirationHours * 60 * 60 * 1000 + 1000) →
        cleanExpiredSessions store now expirationHours sid = none)
    ∧ (store sid = some s →
        s.updatedAt = now - (expirationHours * 60 * 60 * 1000 - 1000) →
        cleanExpiredSessions store now expirationHours sid = some s) := by
  refine ⟨?_, ?_, ?_⟩
  · constructor
    · intro h
      cases hs : store sid with
      | none => simp [cleanExpiredSessions, hs] at h
      | some s' =>
        simp only [cleanExpiredSessions, hs] at h
        by_cases hage :
            now - s'.updatedAt > expirationHours * 60 * 60 * 1000
        · simp [hage] at h
        · rw [if_neg hage] at h
          refine ⟨h, ?_⟩
          injection h with h'
          rwa [← h']
    · rintro ⟨hs, hage⟩
      simp [cleanExpiredSessions, hs, hage]
  · intro hs hage
    have : now - s.updatedAt > expirationHours * 60 * 60 * 1000 := by omega
    simp [cleanExpiredSessions, hs, this]
  · intro hs hage
    have : ¬ now - s.updatedAt > expirationHours * 60 * 60 * 1000 := by omega
    simp [cleanExpiredSessions, hs, this]

/-- Witness for C7 at concrete inputs: with a 24-hour expiration
(86400000 ms) and `now = 10^9`, a session last active 86401000 ms ago is
swept and one last active 86399000 ms ago is kept. -/
theorem sweepExpired_exact_witness :
    cleanExpiredSessions
        (fun k => if k = "old" then
            some ⟨"old", "u", [], 0, 1000000000 - 86401000⟩
          else if k = "young" then
            some ⟨"young", "u", [], 0, 1000000000 - 86399000⟩
          else none)
        1000000000 24 "old" = none
    ∧ cleanExpiredSessions
        (fun k => if k = "old" then
            some ⟨"old", "u", [], 0, 1000000000 - 86401000⟩
          else if k = "young" then
            some ⟨"young", "u", [], 0, 1000000000 - 86399000⟩
          else none)
        1000000000 24 "young"
        = some ⟨"young", "u", [], 0, 1000000000 - 86399000⟩ := by
  constructor
  · exact (sweepExpired_exact _ 1000000000 24 "old"
      ⟨"old", "u", [], 0, 1000000000 - 86401000⟩).2.1 rfl (by norm_num)
  · exact (sweepExpired_exact _ 1000000000 24 "young"
      ⟨"young", "u", [], 0, 1000000000 - 86399000⟩).2.2 rfl (by norm_num)

/-! ### Chat service (`chatService.ts`)

`AgentConfig.temperature` is a JS `number` on which the code only performs
order comparisons against `0` and `1`; it is modelled as `ℚ`.  The AI
provider is an explicit oracle: the buffered call is a function from the
outbound message array to either a response text or a failure message,
and a streaming call is a list of emitted deltas together with an
optional terminal failure.  Each `Date.now()` call site is a time
parameter (`tUser` for the request-building block, `tResp` for the
response/commit block). -/

/-- `AgentConfig` of `src/types/chat.ts`. -/
structure AgentConfig where
  name : String
  model : String
  temperature : ℚ
  systemPrompt : String
deriving DecidableEq, Repr

/-- The `{code, message}` payload of a `ValidationResult` error. -/
structure ErrInfo where
  code : ErrorCode
  message : String
deriving DecidableEq, Repr

/-- `ValidationResult` of `src/types/chat.ts`. -/
structure ValidationResult where
  valid : Bool
  error : Option ErrInfo
deriving DecidableEq, Repr

/-- `ChatResponse` of `src/types/chat.ts` (optional `usage` is never set
by `ChatService.sendMessage` and is elided). -/
structure ChatResponse where
  messageId : String
  content : String
  timestamp : Int
  model : String
deriving DecidableEq, Repr

/-- `SSEChunk` of `src/types/chat.ts`. -/
structure SSEChunk where
  delta : String
  done : Bool
  messageId : Option String
  error : Option String
deriving DecidableEq, Repr

/-- The configuration visible to `ChatService`: the set of supported
models (the keys of `AIProviderService.modelToProvider`) and
`configService.getRateLimits()`. -/
structure Env where
  supportedModels : List String
  maxMessageLength : Nat
  maxSystemPromptLength : Nat
deriving DecidableEq, Repr

/-- `AIProviderService.isModelSupported`. -/
def isModelSupported (env : Env) (modelName : String) : Bool :=
  env.supportedModels.contains modelName

/-- `ChatService.validateAgentConfig`: model support, temperature range,
system-prompt length, in that order. -/
def validateAgentConfig (env : Env) (config : AgentConfig) :
    ValidationResult :=
  if !isModelSupported env config.model then
    { valid := false,
      error := some ⟨.INVALID_MODEL,
        "Model " ++ config.model ++ " is not supported"⟩ }
  else if config.temperature < 0 ∨ config.temperature > 1 then
    { valid := false,
      error := some ⟨.INVALID_TEMPERATURE,
        "Temperature must be between 0 and 1, got "
          ++ toString config.temperature⟩ }
  else if config.systemPrompt.length > env.maxSystemPromptLength then
    { valid := false,
      error := some ⟨.SYSTEM_PROMPT_TOO_LONG,
        "System prompt exceeds maximum length of "
          ++ toString env.maxSystemPromptLength ++ " characters"⟩ }
  else { valid := true, error := none }

/-- `AIProviderService.getProvider`, which resolves the provider for a
model via `configService.getProviderByModel` and throws `INVALID_MODEL`
when no provider declares it. -/
def getProvider (env : Env) (modelName : String) : Except AppErr Unit :=
  if isModelSupported env modelName then .ok ()
  else .error ⟨.INVALID_MODEL,
    "Model " ++ modelName ++ " is not supported", 400⟩

/-- Result of one buffered `ChatService.sendMessage` call:
the session store afterwards, the returned response or thrown error,
and whether the upstream provider was invoked. -/
structure SendResult where
  store : Store
  outcome : Except AppErr ChatResponse
  providerCalled : Bool

/-- The outbound context built by both exchange paths: optional system
message (JS truthiness: only a non-empty `systemPrompt`), then the stored
history, then the new user message. -/
def buildMessages (config : AgentConfig) (history : List ChatMessage)
    (userMessage : ChatMessage) (tUser : Int) : List ChatMessage :=
  (if config.systemPrompt ≠ "" then
      [⟨.system, config.systemPrompt, tUser⟩]
    else []) ++ history ++ [userMessage]

/-- `ChatService.sendMessage`.  `provider` is the oracle for
`provider.chat(messages, agentConfig)`: `.ok` is the resolved response
text, `.error` a rejected promise's message (wrapped by the service into
`AI_API_ERROR`).  The `Option.getD` defaults model the TS non-null
assertion `validation.error!` and are never reached. -/
def sendMessage (env : Env) (store : Store)
    (userId sessionId message : String) (agentConfig : AgentConfig)
    (provider : List ChatMessage → Except String String)
    (tUser tResp : Int) (messageId : String) : SendResult :=
  let validation := validateAgentConfig env agentConfig
  if validation.valid = false then
    { store := store,
      outcome := .error ⟨(validation.error.map (·.code)).getD .INTERNAL_ERROR,
        (validation.error.map (·.message)).getD "", 400⟩,
      providerCalled := false }
  else if message.length > env.maxMessageLength then
    { store := store,
      outcome := .error ⟨.MESSAGE_TOO_LONG,
        "Message exceeds maximum length of "
          ++ toString env.maxMessageLength ++ " characters", 400⟩,
      providerCalled := false }
  else
    let gc := getOrCreateSession store sessionId userId tUser
    let userMessage : ChatMessage := ⟨.user, message, tUser⟩
    let messages := buildMessages agentConfig gc.2.messages userMessage tUser
    match getProvider env agentConfig.model with
    | .error e => { store := gc.1, outcome := .error e, providerCalled := false }
    | .ok _ =>
      match provider messages with
      | .error err =>
        { store := gc.1,
          outcome := .error ⟨.AI_API_ERROR,
            "Failed to send message: " ++ err, 500⟩,
          providerCalled := true }
      | .ok aiResponse =>
        match addMessage gc.1 sessionId userMessage tResp with
        | .error e =>
          { store := gc.1, outcome := .error e, providerCalled := true }
        | .ok store2 =>
          match addMessage store2 sessionId ⟨.assistant, aiResponse, tResp⟩
              tResp with
          | .error e =>
            { store := store2, outcome := .error e, providerCalled := true }
          | .ok store3 =>
            { store := store3,
              outcome := .ok ⟨messageId, aiResponse, tResp, agentConfig.model⟩,
              providerCalled := true }

/-- An error escaping `ChatService.streamMessage`: either a rethrown
`AppError` or a raw (non-`AppError`) provider failure. -/
inductive ThrownErr where
  | app (e : AppErr)
  | raw (message : String)
deriving DecidableEq, Repr

/-- The `errorMessage` computed in `streamMessage`'s catch block. -/
def streamErrMessage : ThrownErr → String
  | .app e => e.message
  | .raw m => "Failed to stream message: " ++ m

/-- Result of one `ChatService.streamMessage` call: the chunks passed to
`onChunk` in order, the session store afterwards, and the returned or
thrown outcome. -/
structure StreamResult where
  chunks : List SSEChunk
  store : Store
  outcome : Except ThrownErr Unit

/-- `ChatService.streamMessage`.  The provider stream oracle is `deltas`
(the texts passed to the adapter's `onChunk` callback in order) plus
`streamFail`: `some m` when `provider.chatStream` rejects with message
`m` after emitting `deltas`, `none` when it completes cleanly. -/
def streamMessage (env : Env) (store : Store)
    (userId sessionId message : String) (agentConfig : AgentConfig)
    (deltas : List String) (streamFail : Option String)
    (messageId : String) (tUser tResp : Int) : StreamResult :=
  let validation := validateAgentConfig env agentConfig
  if validation.valid = false then
    { chunks := [], store := store,
      outcome := .error (.app
        ⟨(validation.error.map (·.code)).getD .INTERNAL_ERROR,
         (validation.error.map (·.message)).getD "", 400⟩) }
  else if message.length > env.maxMessageLength then
    { chunks := [], store := store,
      outcome := .error (.app ⟨.MESSAGE_TOO_LONG,
        "Message exceeds maximum length of "
          ++ toString env.maxMessageLength ++ " characters", 400⟩) }
  else
    let gc := getOrCreateSession store sessionId userId tUser
    let userMessage : ChatMessage := ⟨.user, message, tUser⟩
    match getProvider env agentConfig.model with
    | .error e =>
      { chunks := [⟨"", true, none, some (streamErrMessage (.app e))⟩],
        store := gc.1, outcome := .error (.app e) }
    | .ok _ =>
      let deltaChunks := deltas.map
        (fun d => (⟨d, false, some messageId, none⟩ : SSEChunk))
      match streamFail with
      | some err =>
        { chunks := deltaChunks
            ++ [⟨"", true, none, some (streamErrMessage (.raw err))⟩],
          store := gc.1, outcome := .error (.raw err) }
      | none =>
        let fullResponse := String.join deltas
        let finalChunk : SSEChunk := ⟨"", true, some messageId, none⟩
        match addMessage gc.1 sessionId userMessage tResp with
        | .error e =>
          { chunks := deltaChunks ++ [finalChunk,
              ⟨"", true, none, some (streamErrMessage (.app e))⟩],
            store := gc.1, outcome := .error (.app e) }
        | .ok store2 =>
          match addMessage store2 sessionId
              ⟨.assistant, fullResponse, tResp⟩ tResp with
          | .error e =>
            { chunks := deltaChunks ++ [finalChunk,
                ⟨"", true, none, some (streamErrMessage (.app e))⟩],
              store := store2, outcome := .error (.app e) }
          | .ok store3 =>
            { chunks := deltaChunks ++ [finalChunk],
              store := store3, outcome := .ok () }

/-- The `GET /api/chat/stream` route handler around `streamMessage`
(client connected throughout): every chunk handed to `onChunk` is written
to the response, and if `streamMessage` throws, the catch block writes
one more terminal chunk — `error.message` for an `AppError`, the literal
`Internal server error` otherwise.  Returns the units written to the
client and the resulting store. -/
def streamHandler (env : Env) (store : Store)
    (userId sessionId message : String) (agentConfig : AgentConfig)
    (deltas : List String) (streamFail : Option String)
    (messageId : String) (tUser tResp : Int) : List SSEChunk × Store :=
  let r := streamMessage env store userId sessionId message agentConfig
    deltas streamFail messageId tUser tResp
  match r.outcome with
  | .ok _ => (r.chunks, r.store)
  | .error (.app e) =>
    (r.chunks ++ [⟨"", true, none, some e.message⟩], r.store)
  | .error (.raw _) =>
    (r.chunks ++ [⟨"", true, none, some "Internal server error"⟩], r.store)

/-- A small concrete configuration used by witnesses and
counterexamples. -/
def demoEnv : Env :=
  { supportedModels := ["deepseek-chat"],
    maxMessageLength := 10000, maxSystemPromptLength := 5000 }

/-- A valid agent configuration for `demoEnv`. -/
def demoCfg : AgentConfig :=
  { name := "a", model := "deepseek-chat", temperature := mkRat 1 2,
    systemPrompt := "" }

/-- `demoCfg` with the out-of-range temperature `1.5`. -/
def hotCfg : AgentConfig :=
  { name := "a", model := "deepseek-chat", temperature := mkRat 3 2,
    systemPrompt := "" }

/-- A configuration that passes `validateAgentConfig` names a supported
model (the validator's first check). -/
lemma valid_implies_supported (env : Env) (cfg : AgentConfig)
    (hv : (validateAgentConfig env cfg).valid = true) :
    isModelSupported env cfg.model = true := by
  by_contra h
  have h' : isModelSupported env cfg.model = false := by
    simpa using h
  simp [validateAgentConfig, h'] at hv

/-- Get-or-create leaves every session's message list unchanged (a fresh
session has no messages, matching `getMessages` on an absent id). -/
lemma getMessages_getOrCreate (store : Store) (sid uid : String) (now : Int)
    (sid' : String) :
    getMessages (getOrCreateSession store sid uid now).1 sid'
      = getMessages store sid' := by
  cases h : store sid with
  | some s => simp [getOrCreateSession, getSession, h]
  | none =>
    simp only [getOrCreateSession, getSession, h, createSession]
    by_cases hk : sid' = sid
    · subst hk
      simp [getMessages, h]
    · simp [getMessages, hk]

/-- After get-or-create, the target id maps to the returned session. -/
lemma getOrCreate_fst_at (store : Store) (sid uid : String) (now : Int) :
    (getOrCreateSession store sid uid now).1 sid
      = some (getOrCreateSession store sid uid now).2 := by
  cases h : store sid <;>
    simp [getOrCreateSession, getSession, createSession, h]

/-- Get-or-create touches no other key. -/
lemma getOrCreate_fst_other (store : Store) (sid uid : String) (now : Int)
    (sid' : String) (h : sid' ≠ sid) :
    (getOrCreateSession store sid uid now).1 sid' = store sid' := by
  cases hs : store sid <;>
    simp [getOrCreateSession, getSession, createSession, hs, h]

/-- The messages of the session returned by get-or-create are exactly the
stored history of that id. -/
lemma getOrCreate_snd_messages (store : Store) (sid uid : String)
    (now : Int) :
    (getOrCreateSession store sid uid now).2.messages
      = getMessages store sid := by
  cases h : store sid <;>
    simp [getOrCreateSession, getSession, createSession, getMessages, h]

/-- `sendMessage` when validation passes and the provider call rejects:
the whole exchange aborts with `AI_API_ERROR` and the store is left at
the pre-call state (at most a freshly created empty session). -/
lemma sendMessage_providerError (env : Env) (store : Store)
    (uid sid msg : String) (cfg : AgentConfig) (e : String)
    (tU tR : Int) (mid : String)
    (hv : (validateAgentConfig env cfg).valid = true)
    (hlen : msg.length ≤ env.maxMessageLength) :
    sendMessage env store uid sid msg cfg (fun _ => .error e) tU tR mid
      = { store := (getOrCreateSession store sid uid tU).1,
          outcome := .error ⟨.AI_API_ERROR,
            "Failed to send message: " ++ e, 500⟩,
          providerCalled := true } := by
  have hsup := valid_implies_supported env cfg hv
  have hlen' : ¬ msg.length > env.maxMessageLength := by omega
  simp [sendMessage, hv, hlen', getProvider, hsup]

/-- `sendMessage` when validation passes and the provider resolves with
`resp`: the response is returned and exactly the user and assistant
messages are appended to the target session. -/
lemma sendMessage_success (env : Env) (store : Store)
    (uid sid msg : String) (cfg : AgentConfig) (resp : String)
    (tU tR : Int) (mid : String)
    (hv : (validateAgentConfig env cfg).valid = true)
    (hlen : msg.length ≤ env.maxMessageLength) :
    (sendMessage env store uid sid msg cfg (fun _ => .ok resp)
        tU tR mid).outcome
      = .ok ⟨mid, resp, tR, cfg.model⟩
    ∧ ∀ sid',
      getMessages (sendMessage env store uid sid msg cfg (fun _ => .ok resp)
          tU tR mid).store sid'
        = if sid' = sid then
            getMessages store sid'
              ++ [⟨.user, msg, tU⟩, ⟨.assistant, resp, tR⟩]
          else getMessages store sid' := by
  have hsup := valid_implies_supported env cfg hv
  have hlen' : ¬ msg.length > env.maxMessageLength := by omega
  have h1 := getOrCreate_fst_at store sid uid tU
  have hsend : sendMessage env store uid sid msg cfg (fun _ => .ok resp)
      tU tR mid
      = { store := fun k =>
            if k = sid then
              some { (getOrCreateSession store sid uid tU).2 with
                messages := ((getOrCreateSession store sid uid tU).2.messages
                  ++ [⟨.user, msg, tU⟩]) ++ [⟨.assistant, resp, tR⟩],
                updatedAt := tR }
            else (getOrCreateSession store sid uid tU).1 k,
          outcome := .ok ⟨mid, resp, tR, cfg.model⟩,
          providerCalled := true } := by
    simp only [sendMessage, hv, Bool.true_eq_false, if_false, hlen',
      getProvider, hsup, if_true]
    rw [show (addMessage (getOrCreateSession store sid uid tU).1 sid
        ⟨.user, msg, tU⟩ tR)
      = .ok (fun k =>
          if k = sid then
            some { (getOrCreateSession store sid uid tU).2 with
              messages := (getOrCreateSession store sid uid tU).2.messages
                ++ [⟨.user, msg, tU⟩],
              updatedAt := tR }
          else (getOrCreateSession store sid uid tU).1 k)
      from by simp [addMessage, h1]]
    simp [addMessage]
    funext k
    by_cases hk : k = sid <;> simp [hk]
  constructor
  · rw [hsend]
  · intro sid'
    rw [hsend]
    by_cases hk : sid' = sid
    · subst hk
      simp [getMessages, getOrCreate_snd_messages]
    · simp only [getMessages, hk, if_false]
      have := getOrCreate_fst_other store sid uid tU sid' hk
      rw [this]

/-- `streamMessage` when validation passes and the provider stream fails
after emitting `deltas`: the emitted chunks are the delta chunks followed
by a single terminal error chunk, nothing is committed, and the raw
failure is rethrown. -/
lemma streamMessage_fail (env : Env) (store : Store)
    (uid sid msg : String) (cfg : AgentConfig) (deltas : List String)
    (e : String) (mid : String) (tU tR : Int)
    (hv : (validateAgentConfig env cfg).valid = true)
    (hlen : msg.length ≤ env.maxMessageLength) :
    streamMessage env store uid sid msg cfg deltas (some e) mid tU tR
      = { chunks := deltas.map
            (fun d => (⟨d, false, some mid, none⟩ : SSEChunk))
            ++ [⟨"", true, none,
                  some ("Failed to stream message: " ++ e)⟩],
          store := (getOrCreateSession store sid uid tU).1,
          outcome := .error (.raw e) } := by
  have hsup := valid_implies_supported env cfg hv
  have hlen' : ¬ msg.length > env.maxMessageLength := by omega
  simp [streamMessage, hv, hlen', getProvider, hsup, streamErrMessage]

/-- C3: when the upstream provider call fails, no turn is committed.
Buffered path: `sendMessage` aborts the whole exchange with
`AI_API_ERROR` (HTTP 500) and every session's message list is exactly as
before the call.  Streaming path: `streamMessage` surfaces the failure
as the single terminal chunk after the deltas, rethrows it, and likewise
commits nothing. -/
theorem upstreamFailure_no_commit :
    (∀ (env : Env) (store : Store) (uid sid msg : String)
        (cfg : AgentConfig) (e : String) (tU tR : Int) (mid : String),
      (validateAgentConfig env cfg).valid = true →
      msg.length ≤ env.maxMessageLength →
      (sendMessage env store uid sid msg cfg (fun _ => .error e)
          tU tR mid).outcome
        = .error ⟨.AI_API_ERROR, "Failed to send message: " ++ e, 500⟩
      ∧ ∀ sid',
        getMessages (sendMessage env store uid sid msg cfg
            (fun _ => .error e) tU tR mid).store sid'
          = getMessages store sid')
    ∧ (∀ (env : Env) (store : Store) (uid sid msg : String)
        (cfg : AgentConfig) (deltas : List String) (e : String)
        (mid : String) (tU tR : Int),
      (validateAgentConfig env cfg).valid = true →
      msg.length ≤ env.maxMessageLength →
      (streamMessage env store uid sid msg cfg deltas (some e)
          mid tU tR).chunks
        = deltas.map (fun d => (⟨d, false, some mid, none⟩ : SSEChunk))
          ++ [⟨"", true, none, some ("Failed to stream message: " ++ e)⟩]
      ∧ (streamMessage env store uid sid msg cfg deltas (some e)
          mid tU tR).outcome = .error (.raw e)
      ∧ ∀ sid',
        getMessages (streamMessage env store uid sid msg cfg deltas
            (some e) mid tU tR).store sid'
          = getMessages store sid') := by
  constructor
  · intro env store uid sid msg cfg e tU tR mid hv hlen
    rw [sendMessage_providerError env store uid sid msg cfg e tU tR mid
      hv hlen]
    exact ⟨rfl, fun sid' => getMessages_getOrCreate store sid uid tU sid'⟩
  · intro env store uid sid msg cfg deltas e mid tU tR hv hlen
    rw [streamMessage_fail env store uid sid msg cfg deltas e mid tU tR
      hv hlen]
    exact ⟨rfl, rfl, fun sid' => getMessages_getOrCreate store sid uid tU sid'⟩

/-- Witness for C3 at concrete inputs: a failing buffered call returns
the upstream error, and a stream failing after one delta leaves the
target session's history empty. -/
theorem upstreamFailure_no_commit_witness :
    (sendMessage demoEnv emptyStore "u" "s" "hi" demoCfg
        (fun _ => .error "boom") 0 1 "m1").outcome
      = .error ⟨.AI_API_ERROR, "Failed to send message: boom", 500⟩
    ∧ getMessages (streamMessage demoEnv emptyStore "u" "s" "hi" demoCfg
        ["He"] (some "boom") "m1" 0 1).store "s"
      = getMessages emptyStore "s" :=
  ⟨(upstreamFailure_no_commit.1 demoEnv emptyStore "u" "s" "hi" demoCfg
      "boom" 0 1 "m1" (by decide) (by decide)).1,
   (upstreamFailure_no_commit.2 demoEnv emptyStore "u" "s" "hi" demoCfg
      ["He"] "boom" "m1" 0 1 (by decide) (by decide)).2.2 "s"⟩

/-- C9 counterexample: streaming deltas `"He"`, `"llo"` does **not**
produce the claimed outward units — the identifier (`messageId`, the
spec's `completionId`) is present on the two non-final delta units as
well, not only on the final unit. -/
theorem streamRoundTrip_counterexample :
    (streamMessage demoEnv emptyStore "u" "s" "Hi" demoCfg ["He", "llo"]
        none "m1" 0 1).chunks
      ≠ [⟨"He", false, none, none⟩, ⟨"llo", false, none, none⟩,
         ⟨"", true, some "m1", none⟩] := by
  decide

/-- C9 (amended): streaming deltas `"He"`, `"llo"` with a clean finish
yields units `{delta:"He",done:false}`, `{delta:"llo",done:false}`,
`{delta:"",done:true}` — each carrying the completion identifier, which
is present on **every** non-error unit, not only the final one — and
commits an assistant turn whose content is `"Hello"`, the concatenation
of the deltas, paired after the user turn. -/
theorem streamRoundTrip_amended :
    (streamMessage demoEnv emptyStore "u" "s" "Hi" demoCfg ["He", "llo"]
        none "m1" 0 1).chunks
      = [⟨"He", false, some "m1", none⟩, ⟨"llo", false, some "m1", none⟩,
         ⟨"", true, some "m1", none⟩]
    ∧ getMessages (streamMessage demoEnv emptyStore "u" "s" "Hi" demoCfg
        ["He", "llo"] none "m1" 0 1).store "s"
      = [⟨.user, "Hi", 0⟩, ⟨.assistant, "Hello", 1⟩] := by
  constructor <;> decide

/-- C4 (bug evidence): a streaming exchange whose provider fails
mid-stream (here: rejecting with `"boom"` after emitting `"He"`) causes
the route handler to write **two** units with `done = true` — one from
`streamMessage`'s catch block, a second from the route's catch block
after the rethrow — where the spec requires exactly one. -/
theorem streamHandler_double_terminal_chunk :
    ((streamHandler demoEnv emptyStore "u" "s" "Hi" demoCfg ["He"]
        (some "boom") "m1" 0 1).1.countP (fun c => c.done)) = 2
    ∧ (streamHandler demoEnv emptyStore "u" "s" "Hi" demoCfg ["He"]
        (some "boom") "m1" 0 1).1
      = [⟨"He", false, some "m1", none⟩,
         ⟨"", true, none, some "Failed to stream message: boom"⟩,
         ⟨"", true, none, some "Internal server error"⟩] := by
  constructor <;> decide

/-- C8: validation failures are contained.  An out-of-range temperature
on a supported model is rejected with `INVALID_TEMPERATURE`; any
validation failure, and any over-long message, leaves the store
untouched and never invokes the provider — all checks run before any
session creation, append, or upstream call. -/
theorem validationFailure_containment :
    (∀ (env : Env) (store : Store) (uid sid msg : String)
        (cfg : AgentConfig)
        (provider : List ChatMessage → Except String String)
        (tU tR : Int) (mid : String),
      isModelSupported env cfg.model = true →
      cfg.temperature < 0 ∨ cfg.temperature > 1 →
      sendMessage env store uid sid msg cfg provider tU tR mid
        = { store := store,
            outcome := .error ⟨.INVALID_TEMPERATURE,
              "Temperature must be between 0 and 1, got "
                ++ toString cfg.temperature, 400⟩,
            providerCalled := false })
    ∧ (∀ (env : Env) (store : Store) (uid sid msg : String)
        (cfg : AgentConfig)
        (provider : List ChatMessage → Except String String)
        (tU tR : Int) (mid : String),
      (validateAgentConfig env cfg).valid = false →
      (sendMessage env store uid sid msg cfg provider tU tR mid).store
          = store
      ∧ (sendMessage env store uid sid msg cfg provider
          tU tR mid).providerCalled = false
      ∧ ∃ err : AppErr,
          (sendMessage env store uid sid msg cfg provider
            tU tR mid).outcome = .error err
          ∧ err.statusCode = 400)
    ∧ (∀ (env : Env) (store : Store) (uid sid msg : String)
        (cfg : AgentConfig)
        (provider : List ChatMessage → Except String String)
        (tU tR : Int) (mid : String),
      (validateAgentConfig env cfg).valid = true →
      msg.length > env.maxMessageLength →
      sendMessage env store uid sid msg cfg provider tU tR mid
        = { store := store,
            outcome := .error ⟨.MESSAGE_TOO_LONG,
              "Message exceeds maximum length of "
                ++ toString env.maxMessageLength ++ " characters", 400⟩,
            providerCalled := false }) := by
  refine ⟨?_, ?_, ?_⟩
  · intro env store uid sid msg cfg provider tU tR mid hsup htemp
    have hval : validateAgentConfig env cfg
        = ⟨false, some ⟨.INVALID_TEMPERATURE,
            "Temperature must be between 0 and 1, got "
              ++ toString cfg.temperature⟩⟩ := by
      simp [validateAgentConfig, hsup, htemp]
    simp [sendMessage, hval]
  · intro env store uid sid msg cfg provider tU tR mid hval
    refine ⟨by simp [sendMessage, hval], by simp [sendMessage, hval], ?_⟩
    refine ⟨⟨(Option.map (·.code) (validateAgentConfig env cfg).error).getD
        .INTERNAL_ERROR,
      (Option.map (·.message) (validateAgentConfig env cfg).error).getD "",
      400⟩, by simp [sendMessage, hval], rfl⟩
  · intro env store uid sid msg cfg provider tU tR mid hval hlong
    simp [sendMessage, hval, hlong]

/-- Witness for C8: with `temperature = 3/2` (the claim's `1.5`) on a
supported model, `sendMessage` rejects with `INVALID_TEMPERATURE`, the
store is unchanged and the provider is never called. -/
theorem validationFailure_containment_witness :
    sendMessage demoEnv emptyStore "u" "s" "hi" hotCfg
        (fun _ => .ok "ok") 0 1 "m1"
      = { store := emptyStore,
          outcome := .error ⟨.INVALID_TEMPERATURE,
            "Temperature must be between 0 and 1, got "
              ++ toString hotCfg.temperature, 400⟩,
          providerCalled := false } :=
  validationFailure_containment.1 demoEnv emptyStore "u" "s" "hi" hotCfg
    (fun _ => .ok "ok") 0 1 "m1" (by decide) (Or.inr (by decide))

/-- The authenticated section of the `POST /api/chat/send` (and
`GET /api/chat/stream`) middleware chain: `rateLimitMiddleware` runs
first, so the admission charge is taken before the handler performs any
parameter or configuration validation via `ChatService`. -/
def handleSendAfterAuth (rl : List Int) (now : Int) (env : Env)
    (store : Store) (uid sid msg : String) (cfg : AgentConfig)
    (provider : List ChatMessage → Except String String)
    (tU tR : Int) (mid : String) : List Int × SendResult :=
  match rateLimitMiddleware rl now with
  | .reject code status ts =>
    (ts, { store := store,
           outcome := .error ⟨code,
             "Rate limit exceeded. Maximum "
               ++ toString RATE_LIMIT_MAX_REQUESTS
               ++ " requests per minute allowed.", status⟩,
           providerCalled := false })
  | .proceed ts =>
    (ts, sendMessage env store uid sid msg cfg provider tU tR mid)

/-- Outcome of the authenticated section of the `GET /api/chat/stream`
chain: either the 429 rejection response of `rateLimitMiddleware`, or
the units written by the route handler together with the resulting
store. -/
inductive StreamRouteOutcome where
  | rateLimited (code : ErrorCode) (status : Nat)
  | handled (written : List SSEChunk) (store : Store)

/-- The authenticated section of the `GET /api/chat/stream` middleware
chain: `rateLimitMiddleware` runs first, then the route handler around
`ChatService.streamMessage` — so here too the admission charge is taken
before any parameter or configuration validation. -/
def handleStreamAfterAuth (rl : List Int) (now : Int) (env : Env)
    (store : Store) (uid sid msg : String) (cfg : AgentConfig)
    (deltas : List String) (streamFail : Option String)
    (mid : String) (tU tR : Int) : List Int × StreamRouteOutcome :=
  match rateLimitMiddleware rl now with
  | .reject code status ts => (ts, .rateLimited code status)
  | .proceed ts =>
    let r := streamHandler env store uid sid msg cfg deltas streamFail
      mid tU tR
    (ts, .handled r.1 r.2)

/-- C10: on both the buffered (`POST /send`) and the streaming
(`GET /stream`) entry points, whenever admission succeeds the caller's
window is charged one timestamp — its in-window count strictly
increases — before any model/temperature/length validation runs, so a
request later rejected as invalid still consumed an admission slot:
the buffered handler then fails without touching the store or calling
the provider, and the streaming handler writes only the terminal
validation-error chunk with the store unchanged. -/
theorem admissionCharge_precedes_validation :
    ∀ (rl : List Int) (now : Int) (env : Env) (store : Store)
      (uid sid msg : String) (cfg : AgentConfig)
      (provider : List ChatMessage → Except String String)
      (deltas : List String) (streamFail : Option String)
      (tU tR : Int) (mid : String),
      isRateLimitExceeded rl now = false →
      (handleSendAfterAuth rl now env store uid sid msg cfg provider
          tU tR mid).1 = recordRequest rl now
      ∧ (handleStreamAfterAuth rl now env store uid sid msg cfg deltas
          streamFail mid tU tR).1 = recordRequest rl now
      ∧ ((recordRequest rl now).filter (windowPred now)).length
          = (rl.filter (windowPred now)).length + 1
      ∧ ((validateAgentConfig env cfg).valid = false →
          (handleSendAfterAuth rl now env store uid sid msg cfg provider
              tU tR mid).2.store = store
          ∧ (handleSendAfterAuth rl now env store uid sid msg cfg provider
              tU tR mid).2.providerCalled = false
          ∧ ∃ err : AppErr,
              (handleSendAfterAuth rl now env store uid sid msg cfg
                provider tU tR mid).2.outcome = .error err)
      ∧ ((validateAgentConfig env cfg).valid = false →
          (handleStreamAfterAuth rl now env store uid sid msg cfg deltas
              streamFail mid tU tR).2
            = .handled
                [⟨"", true, none,
                  some ((Option.map (·.message)
                    (validateAgentConfig env cfg).error).getD "")⟩]
                store) := by
  intro rl now env store uid sid msg cfg provider deltas streamFail
    tU tR mid hex
  have hmw : rateLimitMiddleware rl now = .proceed (recordRequest rl now) := by
    simp [rateLimitMiddleware, hex]
  have hpn : windowPred now now = true := by
    simp [windowPred, RATE_LIMIT_WINDOW_MS]
  refine ⟨by simp [handleSendAfterAuth, hmw],
    by simp [handleStreamAfterAuth, hmw], ?_, ?_, ?_⟩
  · simp [recordRequest, List.filter_append, List.filter_filter,
      Bool.and_self, hpn]
  · intro hval
    refine ⟨by simp [handleSendAfterAuth, hmw, sendMessage, hval],
      by simp [handleSendAfterAuth, hmw, sendMessage, hval], ?_⟩
    refine ⟨⟨(Option.map (·.code) (validateAgentConfig env cfg).error).getD
        .INTERNAL_ERROR,
      (Option.map (·.message) (validateAgentConfig env cfg).error).getD "",
      400⟩, by simp [handleSendAfterAuth, hmw, sendMessage, hval]⟩
  · intro hval
    simp [handleStreamAfterAuth, hmw, streamHandler, streamMessage, hval]

/-- Witness for C10: from an empty window, a buffered and a streaming
request at time `0` with the invalid temperature `3/2` are both charged
(`[0]` is recorded) even though they are then rejected, and the
buffered path never calls the provider. -/
theorem admissionCharge_precedes_validation_witness :
    (handleSendAfterAuth [] 0 demoEnv emptyStore "u" "s" "hi" hotCfg
        (fun _ => .ok "ok") 0 1 "m1").1 = recordRequest [] 0
    ∧ (handleStreamAfterAuth [] 0 demoEnv emptyStore "u" "s" "hi" hotCfg
        [] none "m1" 0 1).1 = recordRequest [] 0
    ∧ (handleSendAfterAuth [] 0 demoEnv emptyStore "u" "s" "hi" hotCfg
        (fun _ => .ok "ok") 0 1 "m1").2.providerCalled = false := by
  have h := admissionCharge_precedes_validation [] 0 demoEnv emptyStore
    "u" "s" "hi" hotCfg (fun _ => .ok "ok") [] none 0 1 "m1" (by decide)
  exact ⟨h.1, h.2.1, (h.2.2.2.1 (by decide)).2.1⟩

/-- One buffered exchange as seen by `sendMessage`: the request text and
configuration, the provider's (successful) response, the two `Date.now()`
readings and the generated message id. -/
structure Exchange where
  message : String
  cfg : AgentConfig
  response : String
  tUser : Int
  tResp : Int
  msgId : String
deriving DecidableEq, Repr

/-- The two turns one successful buffered exchange appends. -/
def exchangeTurns (ex : Exchange) : List ChatMessage :=
  [⟨.user, ex.message, ex.tUser⟩, ⟨.assistant, ex.response, ex.tResp⟩]

/-- Run a sequence of buffered exchanges through `ChatService.sendMessage`
for one conversation, stopping at the first thrown error. -/
def runExchanges (env : Env) (uid sid : String) :
    Store → List Exchange → Except AppErr Store
  | store, [] => .ok store
  | store, ex :: rest =>
    let r := sendMessage env store uid sid ex.message ex.cfg
      (fun _ => .ok ex.response) ex.tUser ex.tResp ex.msgId
    match r.outcome with
    | .ok _ => runExchanges env uid sid r.store rest
    | .error err => .error err

/-- Each exchange contributes exactly two turns. -/
lemma length_flatMap_turns (es : List Exchange) :
    (es.flatMap exchangeTurns).length = 2 * es.length := by
  induction es with
  | nil => simp
  | cons ex rest ih =>
    simp [List.flatMap_cons, exchangeTurns, ih]
    omega

/-- The timestamps of the flattened turns are monotone when each
exchange's user time precedes its response time and consecutive
exchanges do not overlap backwards. -/
lemma chain'_turn_timestamps (es : List Exchange)
    (h1 : ∀ ex ∈ es, ex.tUser ≤ ex.tResp)
    (h2 : List.Chain' (fun a b => a.tResp ≤ b.tUser) es) :
    List.Chain' (· ≤ ·)
      ((es.flatMap exchangeTurns).map (fun m => m.timestamp)) := by
  induction es with
  | nil => simp
  | cons ex rest ih =>
    have hx : ex.tUser ≤ ex.tResp := h1 ex (by simp)
    have ihr := ih (fun e he => h1 e (by simp [he])) h2.tail
    rw [List.flatMap_cons, List.map_append]
    refine List.chain'_append.mpr ⟨?_, ihr, ?_⟩
    · simpa [exchangeTurns] using hx
    · intro x hx' y hy'
      have hxval : ex.tResp = x := by
        simpa [exchangeTurns] using hx'
      subst hxval
      cases rest with
      | nil => simp at hy'
      | cons ex2 rest2 =>
        have hyval : ex2.tUser = y := by
          simpa [List.flatMap_cons, exchangeTurns] using hy'
        subst hyval
        exact (List.chain'_cons.mp h2).1

/-- Inductive core for C2: a sequence of valid exchanges with succeeding
provider calls runs to completion and appends exactly the user/assistant
pair of each exchange, in order, to the target conversation. -/
lemma runExchanges_ok (env : Env) (uid sid : String) :
    ∀ (es : List Exchange) (store : Store),
      (∀ ex ∈ es, (validateAgentConfig env ex.cfg).valid = true) →
      (∀ ex ∈ es, ex.message.length ≤ env.maxMessageLength) →
      ∃ store' : Store,
        runExchanges env uid sid store es = .ok store'
        ∧ getMessages store' sid
            = getMessages store sid ++ es.flatMap exchangeTurns := by
  intro es
  induction es with
  | nil =>
    intro store _ _
    exact ⟨store, rfl, by simp⟩
  | cons ex rest ih =>
    intro store hv hlen
    have hs := sendMessage_success env store uid sid ex.message ex.cfg
      ex.response ex.tUser ex.tResp ex.msgId (hv ex (by simp))
      (hlen ex (by simp))
    have hrun : runExchanges env uid sid store (ex :: rest)
        = runExchanges env uid sid
            (sendMessage env store uid sid ex.message ex.cfg
              (fun _ => .ok ex.response) ex.tUser ex.tResp ex.msgId).store
            rest := by
      simp only [runExchanges]
      rw [hs.1]
    obtain ⟨store', h1, h2⟩ := ih
      (sendMessage env store uid sid ex.message ex.cfg
        (fun _ => .ok ex.response) ex.tUser ex.tResp ex.msgId).store
      (fun e he => hv e (by simp [he])) (fun e he => hlen e (by simp [he]))
    refine ⟨store', by rw [hrun]; exact h1, ?_⟩
    rw [h2]
    have h3 := hs.2 sid
    rw [if_pos rfl] at h3
    rw [h3]
    simp [List.flatMap_cons, exchangeTurns]

/-- C2: after `N` successful buffered exchanges the conversation holds
exactly `2N` turns — one user turn then one assistant turn per exchange,
in append order — and, for monotone exchange times, in chronological
order. -/
theorem bufferedExchanges_two_turns_per_exchange (env : Env)
    (uid sid : String) (es : List Exchange) (store : Store)
    (hv : ∀ ex ∈ es, (validateAgentConfig env ex.cfg).valid = true)
    (hlen : ∀ ex ∈ es, ex.message.length ≤ env.maxMessageLength) :
    ∃ store' : Store,
      runExchanges env uid sid store es = .ok store'
      ∧ getMessages store' sid
          = getMessages store sid ++ es.flatMap exchangeTurns
      ∧ (getMessages store sid = [] →
          (getMessages store' sid).length = 2 * es.length)
      ∧ (getMessages store sid = [] →
          (∀ ex ∈ es, ex.tUser ≤ ex.tResp) →
          List.Chain' (fun a b => a.tResp ≤ b.tUser) es →
          List.Chain' (· ≤ ·)
            ((getMessages store' sid).map (fun m => m.timestamp))) := by
  obtain ⟨store', h1, h2⟩ := runExchanges_ok env uid sid es store hv hlen
  refine ⟨store', h1, h2, ?_, ?_⟩
  · intro hfresh
    rw [h2, hfresh, List.nil_append, length_flatMap_turns]
  · intro hfresh hmono hchain
    rw [h2, hfresh, List.nil_append]
    exact chain'_turn_timestamps es hmono hchain

/-- Two concrete successful exchanges for the C2 witness. -/
def demoExchanges : List Exchange :=
  [⟨"Hi", demoCfg, "Hello", 0, 1, "m1"⟩,
   ⟨"again", demoCfg, "World", 2, 3, "m2"⟩]

/-- Witness for C2: running the two demo exchanges on a fresh store
succeeds and the conversation ends with exactly their four turns. -/
theorem bufferedExchanges_two_turns_per_exchange_witness :
    ∃ store' : Store,
      runExchanges demoEnv "u" "s" emptyStore demoExchanges = .ok store'
      ∧ getMessages store' "s" = demoExchanges.flatMap exchangeTurns
      ∧ (getMessages store' "s").length = 2 * demoExchanges.length := by
  obtain ⟨store', h1, h2, h3, _⟩ :=
    bufferedExchanges_two_turns_per_exchange demoEnv "u" "s" demoExchanges
      emptyStore (by decide) (by decide)
  exact ⟨store', h1, by simpa using h2, h3 rfl⟩

end YiQi
